import Mathlib

/-!
Shallow embedding of the `ServerManager` class of `starbox-client`
(the backend-service supervisor in `src/main/service-manager.ts`).

The embedding translates each method of the class into a pure Lean
function over an explicit supervisor state, with the operating-system
behaviour (port occupancy, shell command results, process liveness,
health-poll responses) supplied as explicit environment records.
-/

namespace Starbox

/-- The three platforms distinguished by `process.platform` in the source. -/
inductive Platform where
  | win32
  | darwin
  | linux
deriving DecidableEq, Repr

/-- Result record of a reap attempt, the source interface
`CleanupResult` with fields `success` and `message`. -/
structure CleanupResult where
  success : Bool
  message : String
deriving DecidableEq, Repr

/-- The `type` argument of `executeCleanupCommand`: by process name or by port. -/
inductive CleanupType where
  | name
  | port
deriving DecidableEq, Repr

/-- Operating-system responses consumed by one run of `executeCleanupCommand`:
the stdout of the listener-discovery command, the pid extracted from it
(regex match or, on Linux, the `fuser` output), and whether each `exec`
invocation rejects. -/
structure ReapEnv where
  discoveryStdout : String
  pidMatch : Option String
  discoveryThrows : Bool
  killExecThrows : Bool
  errText : String
deriving Repr

/-- Truthiness of `s.trim()` in the source: the trimmed string is nonempty
exactly when `s` contains a character that is not whitespace. -/
def trimTruthy (s : String) : Bool :=
  s.toList.any (fun c => !c.isWhitespace)

/-- Model of `executeCleanupCommand(type, value)` from the source,
lines 94-177.

For the `name` type every platform builds a single shell command guarded by
`|| true` (resp. `|| exit /b 0`), so the command string is always nonempty
and the result is success unless the `exec` of that command rejects.

For the `port` type every platform first runs a discovery command; an empty
(trimmed) stdout returns `success: false` with the no-process message, a
nonempty stdout without an extractable pid returns `success: false` with the
no-pid message, and otherwise the kill command runs. A rejection of either
`exec` is caught and mapped to `success: false` with the failure message. -/
def executeCleanupCommand (pf : Platform) (t : CleanupType) (env : ReapEnv) :
    CleanupResult :=
  match t with
  | .name =>
    -- win32: tasklist/taskkill guarded by `|| exit /b 0`;
    -- darwin: pgrep | xargs kill -9 `|| true`; linux: pkill `|| true`.
    match pf with
    | .win32 =>
      if env.killExecThrows then
        ⟨false, "按名称 清理进程失败: " ++ env.errText⟩
      else ⟨true, "清理成功"⟩
    | .darwin =>
      if env.killExecThrows then
        ⟨false, "按名称 清理进程失败: " ++ env.errText⟩
      else ⟨true, "清理成功"⟩
    | .linux =>
      if env.killExecThrows then
        ⟨false, "按名称 清理进程失败: " ++ env.errText⟩
      else ⟨true, "清理成功"⟩
  | .port =>
    -- win32: netstat | findstr; darwin: lsof | grep; linux: netstat then fuser.
    if env.discoveryThrows then
      ⟨false, "按端口 清理进程失败: " ++ env.errText⟩
    else if trimTruthy env.discoveryStdout then
      match env.pidMatch with
      | some _ =>
        if env.killExecThrows then
          ⟨false, "按端口 清理进程失败: " ++ env.errText⟩
        else ⟨true, "清理成功"⟩
      | none => ⟨false, "找不到占用端口的PID"⟩
    else ⟨false, "没有进程占用该端口"⟩

/-- Model of `cleanupOldProcesses()`: the by-name reap, lines 182-184. -/
def cleanupOldProcesses (pf : Platform) (env : ReapEnv) : CleanupResult :=
  executeCleanupCommand pf .name env

/-- Model of `killProcessOnPort(port)`: the by-port reap, lines 189-192. -/
def killProcessOnPort (pf : Platform) (env : ReapEnv) : Bool :=
  (executeCleanupCommand pf .port env).success

/-- The fields of a `ChildProcess` the supervisor reads: its `pid`, which
may be `undefined` (`none`). -/
structure Handle where
  pid : Option Nat
deriving DecidableEq, Repr

/-- The mutable fields of `ServerManager`: `serverProcess`, `port` and
`serverReady` (`maxKillAttempts` is the constant 3). -/
structure SState where
  serverProcess : Option Handle
  port : Nat
  serverReady : Bool
deriving DecidableEq, Repr

/-- The constructed `ServerManager` singleton: no process, port 23450,
not ready. -/
def initialState : SState :=
  ⟨none, 23450, false⟩

/-- The constant `maxKillAttempts = 3`, line 25. -/
def maxKillAttempts : Nat := 3

/-- Model of `resetServerState()`, lines 531-534: clears the handle and the
readiness flag together. -/
def resetServerState (s : SState) : SState :=
  { s with serverProcess := none, serverReady := false }

/-- Model of `getPort()`, lines 539-541. -/
def getPort (s : SState) : Nat :=
  s.port

/-- Model of `getServerPath()`, lines 44-66: resolves the executable path and
throws
when the file does not exist. The file-system answer is the argument. -/
def getServerPath (exeExists : Bool) : Except String String :=
  if exeExists then .ok "starbox-server"
  else .error "后端服务可执行文件不存在"

/-- Operating-system responses consumed by one run of `prepareForStart`:
the two `isPortInUse` probes (before and after the reap attempts) and the
success bit of the by-port reap. -/
structure PortEnv where
  inUse : Nat → Bool
  killByPort : Nat → Bool
  inUseAfterReap : Nat → Bool

/-- The observable outcome of `prepareForStart`: the resulting port and
which reap attempts were invoked. -/
structure PrepareResult where
  port : Nat
  byPortReapTried : Bool
  byNameReapTried : Bool
deriving DecidableEq, Repr

/-- Model of `prepareForStart()`, lines 273-297: probe the port; when
occupied, try
the by-port reap, on its failure the by-name reap, re-probe once, and when
the port is still occupied increment it by one. No further probe of the
incremented port is made. -/
def prepareForStart (env : PortEnv) (port : Nat) : PrepareResult :=
  if env.inUse port then
    let killedByPort := env.killByPort port
    let stillInUse := env.inUseAfterReap port
    ⟨if stillInUse then port + 1 else port, true, !killedByPort⟩
  else ⟨port, false, false⟩

/-- Operating-system responses consumed by one run of `spawnServerProcess`:
whether the executable exists on disk and the pid of the spawned child. -/
structure SpawnEnv where
  exeExists : Bool
  newPid : Option Nat

/-- Model of `spawnServerProcess()`, lines 302-334: resolve the executable
path
(which may throw) and spawn the child, storing its handle. -/
def spawnServerProcess (env : SpawnEnv) (s : SState) : Except String SState :=
  match getServerPath env.exeExists with
  | .error e => .error e
  | .ok _ => .ok { s with serverProcess := some ⟨env.newPid⟩ }

/-- Model of `start(port?)`, lines 251-268: early return when a process
handle is
already present; otherwise take the optional port argument, run
`prepareForStart` then `spawnServerProcess`, and catch every thrown error,
logging it and clearing `serverReady`. The second component is what the
caller of `start()` observes: the promise always resolves (`Except.ok`),
also on the catch path. -/
def start (penv : PortEnv) (senv : SpawnEnv) (portArg : Option Nat)
    (s : SState) : SState × Except String Unit :=
  if s.serverProcess.isSome then (s, .ok ())
  else
    let s₁ := match portArg with
      | some p => { s with port := p }
      | none => s
    let s₂ := { s₁ with port := (prepareForStart penv s₁.port).port }
    match spawnServerProcess senv s₂ with
    | .ok s₃ => (s₃, .ok ())
    | .error _ => ({ s₂ with serverReady := false }, .ok ())

/-- Whether `needle` occurs as a prefix of `hay`, on character lists. -/
def charsLeading : List Char → List Char → Bool
  | [], _ => true
  | _ :: _, [] => false
  | a :: as, b :: bs => a = b && charsLeading as bs

/-- Whether `needle` occurs as a contiguous substring of `hay`, on
character lists. -/
def charsContains (hay needle : List Char) : Bool :=
  charsLeading needle hay ||
    match hay with
    | [] => false
    | _ :: t => charsContains t needle

/-- JavaScript `s.includes(sub)`: substring containment. -/
def includes (s sub : String) : Bool :=
  charsContains s.toList sub.toList

/-- The readiness marker the listeners search for, lines 349 and 364. -/
def readyMarker : String := "Backend server is ready"

/-- The stdout `data` handler installed by `setupProcessListeners`,
lines 343-352: any chunk containing the readiness marker sets
`serverReady` to `true`. -/
def onStdoutData (s : SState) (output : String) : SState :=
  if includes output readyMarker then { s with serverReady := true }
  else s

/-- The stderr `data` handler installed by `setupProcessListeners`,
lines 355-375: the chunk is first classified by log level, and only inside
the INFO/DEBUG branch is the readiness marker checked; an error-level chunk
is logged and never touches `serverReady`. -/
def onStderrData (s : SState) (output : String) : SState :=
  if includes output " INFO " || includes output "INFO:" ||
      includes output "DEBUG:" then
    if includes output readyMarker then { s with serverReady := true }
    else s
  else s

/-- The response of one health poll: `none` models a network error or a
timeout of the request, `some c` an HTTP response with status code `c`. -/
structure ReadyEnv where
  pollResult : Option Nat

/-- Model of `isReady(timeout)`, lines 400-436: cached `serverReady`
short-circuits
to `true`; a missing process handle short-circuits to `false`; otherwise
one GET of `/health` is issued and only a 200 status sets the cached flag
and yields `true` — any error, timeout or other status yields `false`. -/
def isReady (env : ReadyEnv) (s : SState) : SState × Bool :=
  if s.serverReady then (s, true)
  else if s.serverProcess.isNone then (s, false)
  else
    match env.pollResult with
    | some 200 => ({ s with serverReady := true }, true)
    | some _ => (s, false)
    | none => (s, false)

/-- The number of health polls one `isReady` call performs on state `s`:
both short-circuit paths return before `http.get`. -/
def isReadyPollCount (s : SState) : Nat :=
  if s.serverReady then 0
  else if s.serverProcess.isNone then 0
  else 1

/-- Operating-system responses consumed by one run of `stop`: per attempt
number, whether the kill call throws and whether `isProcessRunning(pid)`
still finds the process after the 500 ms wait; and the outcome of the
`cleanupOldProcesses()` call of `finalCleanupAttempt` (`Except.error`
models a thrown error). -/
structure StopEnv where
  killThrows : Nat → Bool
  aliveAfter : Nat → Bool
  reap : Except String CleanupResult

/-- Model of `finalCleanupAttempt()`, lines 506-526: invoke the by-name
reap; when
it resolves — successful or not — reset the state and return `true`; only
a thrown error resets the state and returns `false`. -/
def finalCleanupAttempt (reap : Except String CleanupResult) (s : SState) :
    SState × Bool :=
  match reap with
  | .ok _ => (resetServerState s, true)
  | .error _ => (resetServerState s, false)

/-- The attempt loop of `attemptToStopProcess`, lines 464-500: at each
attempt send the kill (a throw is caught and the attempt abandoned), wait,
and re-check the process; when it is gone, reset the state and return
`true`; when the attempt budget is exhausted, fall through to
`finalCleanupAttempt`. `remaining` counts the attempts left, `attempt` the
current attempt number. -/
def stopLoop (env : StopEnv) (s : SState) : Nat → Nat → SState × Bool
  | _, 0 => finalCleanupAttempt env.reap s
  | attempt, r + 1 =>
    if env.killThrows attempt then stopLoop env s (attempt + 1) r
    else if env.aliveAfter attempt then stopLoop env s (attempt + 1) r
    else (resetServerState s, true)

/-- Model of `attemptToStopProcess(pid)`, lines 463-501: up to
`maxKillAttempts`
kill attempts, then the final by-name cleanup. -/
def attemptToStopProcess (env : StopEnv) (s : SState) : SState × Bool :=
  stopLoop env s 1 maxKillAttempts

/-- Model of `stop()`, lines 441-458: no handle short-circuits to `true`;
a handle
whose `pid` is unavailable resets the state and returns `false`; otherwise
the escalation loop runs. -/
def stop (env : StopEnv) (s : SState) : SState × Bool :=
  match s.serverProcess with
  | none => (s, true)
  | some h =>
    match h.pid with
    | none => (resetServerState s, false)
    | some _ => attemptToStopProcess env s

/-- How many kill or reap invocations the attempt loop makes: one kill per
loop iteration, plus the final by-name reap when the budget is exhausted. -/
def stopLoopAttempts (env : StopEnv) : Nat → Nat → Nat
  | _, 0 => 1
  | attempt, r + 1 =>
    if env.killThrows attempt then 1 + stopLoopAttempts env (attempt + 1) r
    else if env.aliveAfter attempt then 1 + stopLoopAttempts env (attempt + 1) r
    else 1

/-- How many kill or reap invocations one `stop()` call makes on state `s`:
zero on the no-handle path and on the pid-unavailable path. -/
def stopReapAttempts (env : StopEnv) (s : SState) : Nat :=
  match s.serverProcess with
  | none => 0
  | some h =>
    match h.pid with
    | none => 0
    | some _ => stopLoopAttempts env 1 maxKillAttempts

/-- Model of `isRunning()`, lines 547-567: `false` without a handle or a
pid; on
non-Windows platforms a live-check with signal 0 (its answer is the
argument `processAlive`), self-healing the state when the process is gone;
on Windows the internal state is trusted. -/
def isRunning (pf : Platform) (processAlive : Bool) (s : SState) :
    SState × Bool :=
  match s.serverProcess with
  | none => (s, false)
  | some h =>
    match h.pid with
    | none => (s, false)
    | some _ =>
      if pf ≠ .win32 then
        if processAlive then (s, true)
        else (resetServerState s, false)
      else (s, true)

/-- The two concurrent callers of `start()` in the interleaving model. -/
inductive Caller where
  | A
  | B
deriving DecidableEq, Repr

/-- State of two interleaved `start()` calls sharing one `ServerManager`.
Each caller has a program counter: `0` — about to run the entry guard of
line 252; `1` — past the guard, suspended in the awaits of
`prepareForStart` before the `spawn` of line 324; `2` — returned.
`spawnCount` counts executed `spawn` calls. -/
structure ConcState where
  serverProcess : Option Nat
  spawnCount : Nat
  pcA : Nat
  pcB : Nat
deriving DecidableEq, Repr

/-- One atomic step of the given caller inside `start()`: the entry guard
(which returns early exactly when a handle is present) or the `spawn`
(which installs the handle). A finished caller does nothing. -/
def stepCall (c : Caller) (s : ConcState) : ConcState :=
  match c with
  | .A =>
    if s.pcA = 0 then
      if s.serverProcess.isSome then { s with pcA := 2 }
      else { s with pcA := 1 }
    else if s.pcA = 1 then
      { s with serverProcess := some 1, spawnCount := s.spawnCount + 1,
               pcA := 2 }
    else s
  | .B =>
    if s.pcB = 0 then
      if s.serverProcess.isSome then { s with pcB := 2 }
      else { s with pcB := 1 }
    else if s.pcB = 1 then
      { s with serverProcess := some 2, spawnCount := s.spawnCount + 1,
               pcB := 2 }
    else s

/-- Run a schedule (a list of caller turns) from a state. -/
def runSchedule (sched : List Caller) (s : ConcState) : ConcState :=
  sched.foldl (fun t c => stepCall c t) s

/-- Both callers at their entry guard, no process spawned. -/
def concInit : ConcState :=
  ⟨none, 0, 0, 0⟩

/-- The state invariant the claims call implicit: the readiness flag is
only `true` while a process handle exists. -/
def ReadyImpliesHandle (s : SState) : Prop :=
  s.serverReady = true → s.serverProcess.isSome

/-- One observable event of the supervisor: a public operation, a stream
`data` event, or a process `exit`/`error` event. `setupProcessListeners`
attaches the `data` listeners with `on` and nothing ever removes them, so
a stream event carries no precondition: it can be delivered in any state —
in particular after `resetServerState` has already dropped the handle
(a surviving process after the best-effort final reap, or stdio output
buffered past the `exit` event). -/
inductive Event where
  | startOp (penv : PortEnv) (senv : SpawnEnv) (portArg : Option Nat)
  | stdoutData (output : String)
  | stderrData (output : String)
  | procExit
  | procError
  | stopOp (env : StopEnv)
  | isReadyOp (env : ReadyEnv)
  | isRunningOp (pf : Platform) (processAlive : Bool)
  | cleanupOldOp (pf : Platform) (env : ReapEnv)
  | cleanupServicePortOp (pf : Platform) (env : ReapEnv) (penv : PortEnv)

/-- The state transformation each event performs, read off the source:
the public operations as modelled above, the stream handlers of
`setupProcessListeners`, and `resetServerState` for the `exit` and
`error` listeners; the two cleanup operations touch no supervisor
field. -/
def applyEvent (e : Event) (s : SState) : SState :=
  match e with
  | .startOp penv senv portArg => (start penv senv portArg s).1
  | .stdoutData output => onStdoutData s output
  | .stderrData output => onStderrData s output
  | .procExit => resetServerState s
  | .procError => resetServerState s
  | .stopOp env => (stop env s).1
  | .isReadyOp env => (isReady env s).1
  | .isRunningOp pf processAlive => (isRunning pf processAlive s).1
  | .cleanupOldOp _ _ => s
  | .cleanupServicePortOp _ _ _ => s

/-- Whether an event is a delivery of a stdout or stderr `data` chunk. -/
def isStreamData : Event → Bool
  | .stdoutData _ => true
  | .stderrData _ => true
  | _ => false

/-- A `ReapEnv` in which no process matches: the discovery stdout is empty
and no command rejects. -/
def noMatchEnv : ReapEnv :=
  ⟨"", none, false, false, ""⟩

/-- C2 counterexample: with no process on the port (empty discovery stdout,
no rejection), the by-port branch of `executeCleanupCommand` returns
`success: false` with the no-process message — not the success the claim
states. -/
theorem claim2_counterexample :
    executeCleanupCommand .linux .port noMatchEnv =
      ⟨false, "没有进程占用该端口"⟩ ∧
    (executeCleanupCommand .win32 .port noMatchEnv).success = false ∧
    (executeCleanupCommand .darwin .port noMatchEnv).success = false := by
  decide

/-- C2 (amended): on every platform, the by-name reap is idempotent — when
its guarded command does not reject (as it is built with a trailing
`|| true` resp. `|| exit /b 0`, it does not when no process matches), it
returns `success: true`; the by-port reap, however, returns
`success: false` with the no-process message when no process listens on
the port. -/
theorem claim2_reap_idempotence (pf : Platform) (env : ReapEnv)
    (hname : env.killExecThrows = false)
    (hport : trimTruthy env.discoveryStdout = false)
    (hdisc : env.discoveryThrows = false) :
    (executeCleanupCommand pf .name env).success = true ∧
    executeCleanupCommand pf .port env = ⟨false, "没有进程占用该端口"⟩ := by
  cases pf <;> simp [executeCleanupCommand, hname, hport, hdisc]

/-- C2 witness: the amended statement evaluated in the no-match
environment on darwin. -/
theorem claim2_witness :
    (executeCleanupCommand .darwin .name noMatchEnv).success = true ∧
    executeCleanupCommand .darwin .port noMatchEnv =
      ⟨false, "没有进程占用该端口"⟩ :=
  claim2_reap_idempotence .darwin noMatchEnv (by decide) (by decide)
    (by decide)

/-- C9: `stop()` on a supervisor without a process handle returns `true`
and leaves the whole state (port, handle, readiness flag) unchanged. -/
theorem claim9_stop_idempotent_idle (env : StopEnv) (s : SState)
    (h : s.serverProcess = none) :
    stop env s = (s, true) := by
  obtain ⟨sp, port, ready⟩ := s
  cases h
  rfl

/-- C9 witness: `stop()` on the initial state. -/
theorem claim9_witness :
    stop ⟨fun _ => false, fun _ => false, .ok ⟨true, "清理成功"⟩⟩
      initialState = (initialState, true) :=
  claim9_stop_idempotent_idle _ initialState rfl

/-- C5: when the process is still alive after each of the three kill
attempts, `stop()` reaches `finalCleanupAttempt`, whose result is `true`
whenever the by-name reap resolves — in particular also when its
`CleanupResult` has `success = false` — and `false` exactly when the reap
invocation throws. -/
theorem claim5_optimistic_final_reap (env : StopEnv) (s : SState)
    (h : Handle) (p : Nat)
    (hproc : s.serverProcess = some h) (hpid : h.pid = some p)
    (h1 : env.aliveAfter 1 = true) (h2 : env.aliveAfter 2 = true)
    (h3 : env.aliveAfter 3 = true) :
    (∀ r : CleanupResult, env.reap = .ok r → (stop env s).2 = true) ∧
    (∀ e : String, env.reap = .error e → (stop env s).2 = false) := by
  have hstop : stop env s = finalCleanupAttempt env.reap s := by
    have hs : stop env s = attemptToStopProcess env s := by
      simp [stop, hproc, hpid]
    rw [hs]
    unfold attemptToStopProcess maxKillAttempts
    show stopLoop env s 1 (2 + 1) = _
    rw [stopLoop]
    simp only [h1, if_true, ite_self]
    show stopLoop env s 2 (1 + 1) = _
    rw [stopLoop]
    simp only [h2, if_true, ite_self]
    show stopLoop env s 3 (0 + 1) = _
    rw [stopLoop]
    simp only [h3, if_true, ite_self]
    rw [stopLoop]
  constructor
  · intro r hr
    rw [hstop, hr]
    rfl
  · intro e he
    rw [hstop, he]
    rfl

/-- A stop environment in which the process survives every kill attempt
and the final by-name reap resolves with `success = false`. -/
def survivingStopEnv : StopEnv :=
  ⟨fun _ => false, fun _ => true, .ok ⟨false, "无需清理或没有找到目标进程"⟩⟩

/-- A state holding a live handle with pid 41. -/
def runningState : SState :=
  ⟨some ⟨some 41⟩, 23450, true⟩

/-- C5 witness: with a reap outcome whose `success` is `false`, `stop()`
still returns `true` on the final-cleanup path. -/
theorem claim5_witness :
    (stop survivingStopEnv runningState).2 = true :=
  (claim5_optimistic_final_reap survivingStopEnv runningState ⟨some 41⟩ 41
      rfl rfl rfl rfl rfl).1 ⟨false, "无需清理或没有找到目标进程"⟩ rfl

/-- C6 counterexample: a stderr chunk that consists of the readiness
marker alone is classified as error-level (it matches none of the
INFO/DEBUG patterns), so the stderr handler leaves `serverReady = false`
even though the chunk contains the marker. -/
theorem claim6_counterexample :
    onStderrData ⟨some ⟨some 5⟩, 23450, false⟩ "Backend server is ready" =
      ⟨some ⟨some 5⟩, 23450, false⟩ ∧
    includes "Backend server is ready" readyMarker = true := by
  decide

/-- C6 (amended): a chunk containing the readiness marker always flips
readiness when it arrives on stdout; on stderr it flips readiness exactly
when the chunk is also classified as INFO/DEBUG — an error-level stderr
chunk containing the marker leaves the flag untouched. -/
theorem claim6_marker_detection (s : SState) (output : String)
    (hm : includes output readyMarker = true) :
    (onStdoutData s output).serverReady = true ∧
    ((includes output " INFO " || includes output "INFO:" ||
        includes output "DEBUG:") = true →
      (onStderrData s output).serverReady = true) ∧
    ((includes output " INFO " || includes output "INFO:" ||
        includes output "DEBUG:") = false →
      (onStderrData s output).serverReady = s.serverReady) := by
  refine ⟨?_, ?_, ?_⟩
  · simp [onStdoutData, hm]
  · intro hinfo
    simp [onStderrData, hinfo, hm]
  · intro hinfo
    simp [onStderrData, hinfo]

/-- C6 witness: an INFO-classified stderr chunk containing the marker
flips readiness, evaluated on the initial state. -/
theorem claim6_witness :
    (onStdoutData initialState "INFO: Backend server is ready").serverReady
        = true ∧
    (onStderrData initialState "INFO: Backend server is ready").serverReady
        = true := by
  have h := claim6_marker_detection initialState
    "INFO: Backend server is ready" (by decide)
  exact ⟨h.1, h.2.1 (by decide)⟩

/-- C8 counterexample: on the initial state (readiness flag `false`, no
process handle) `isReady` performs zero health polls and returns `false`
even in an environment whose poll would answer HTTP 200 — the claim
states that whenever the cached flag is false exactly one poll is made. -/
theorem claim8_counterexample :
    isReady ⟨some 200⟩ initialState = (initialState, false) ∧
    isReadyPollCount initialState = 0 := by
  decide

/-- C8 (amended): if the cached flag is `true`, `isReady` returns `true`
with zero polls and no state change; if the flag is `false` and no process
handle exists, it returns `false` with zero polls; otherwise it performs
exactly one poll, returns `true` and sets the cached flag exactly when the
poll answers HTTP 200, and returns `false` on a network error, timeout or
any other status. -/
theorem claim8_isReady_contract (env : ReadyEnv) (s : SState) :
    (s.serverReady = true → isReady env s = (s, true) ∧
      isReadyPollCount s = 0) ∧
    (s.serverReady = false → s.serverProcess = none →
      isReady env s = (s, false) ∧ isReadyPollCount s = 0) ∧
    (s.serverReady = false → s.serverProcess.isSome = true →
      isReadyPollCount s = 1 ∧
      ((isReady env s).2 = true ↔ env.pollResult = some 200) ∧
      ((isReady env s).1.serverReady = true ↔ env.pollResult = some 200) ∧
      (isReady env s).1.serverProcess = s.serverProcess ∧
      (isReady env s).1.port = s.port) := by
  refine ⟨?_, ?_, ?_⟩
  · intro hr
    exact ⟨by simp [isReady, hr], by simp [isReadyPollCount, hr]⟩
  · intro hr hp
    exact ⟨by simp [isReady, hr, hp], by simp [isReadyPollCount, hr, hp]⟩
  · intro hr hp
    have hne : ¬ s.serverProcess = none := by
      cases hsp : s.serverProcess
      · rw [hsp] at hp; simp at hp
      · simp
    have hcount : isReadyPollCount s = 1 := by
      unfold isReadyPollCount
      rw [hr]
      simp [Option.isNone_iff_eq_none, hne]
    have hready : isReady env s =
        match env.pollResult with
        | some 200 => ({ s with serverReady := true }, true)
        | some _ => (s, false)
        | none => (s, false) := by
      unfold isReady
      rw [hr]
      simp [Option.isNone_iff_eq_none, hne]
    refine ⟨hcount, ?_, ?_, ?_, ?_⟩ <;>
      rcases hpr : env.pollResult with _ | c
    · simp [hready, hpr]
    · by_cases hc : c = 200
      · subst hc; simp [hready, hpr]
      · simp [hready, hpr, hc]
    · simp [hready, hpr, hr]
    · by_cases hc : c = 200
      · subst hc; simp [hready, hpr]
      · simp [hready, hpr, hc, hr]
    · simp [hready, hpr]
    · by_cases hc : c = 200
      · subst hc; simp [hready, hpr]
      · simp [hready, hpr, hc]
    · simp [hready, hpr]
    · by_cases hc : c = 200
      · subst hc; simp [hready, hpr]
      · simp [hready, hpr, hc]

/-- C8 witness: the cached-flag path evaluated on a ready state, and the
single-poll path evaluated on a running, not-yet-ready state against an
HTTP 200 answer. -/
theorem claim8_witness :
    isReady ⟨none⟩ ⟨some ⟨some 3⟩, 23451, true⟩ =
      (⟨some ⟨some 3⟩, 23451, true⟩, true) ∧
    isReadyPollCount (⟨some ⟨some 3⟩, 23450, false⟩ : SState) = 1 ∧
    (isReady ⟨some 200⟩ ⟨some ⟨some 3⟩, 23450, false⟩).2 = true := by
  refine ⟨(claim8_isReady_contract ⟨none⟩ ⟨some ⟨some 3⟩, 23451, true⟩).1
    rfl |>.1, ?_, ?_⟩
  · exact ((claim8_isReady_contract ⟨some 200⟩
      ⟨some ⟨some 3⟩, 23450, false⟩).2.2 rfl rfl).1
  · exact ((claim8_isReady_contract ⟨some 200⟩
      ⟨some ⟨some 3⟩, 23450, false⟩).2.2 rfl rfl).2.1.mpr rfl

/-- A port environment in which every port is occupied by an unkillable
foreign process: every probe answers busy, every by-port reap fails, and
every re-probe after the reaps still answers busy. -/
def allBusyEnv : PortEnv :=
  ⟨fun _ => true, fun _ => false, fun _ => true⟩

/-- C1 counterexample: in the all-busy environment `prepareForStart`
moves the port to exactly 23451 and stops — the incremented port is never
re-probed even though it is itself still occupied, so the service cannot
be bound there; the claimed upward probing until a usable port is found
does not happen. -/
theorem claim1_counterexample :
    (prepareForStart allBusyEnv 23450).port = 23451 ∧
    allBusyEnv.inUseAfterReap 23451 = true ∧
    (prepareForStart allBusyEnv 23451).port = 23452 := by
  constructor
  · rfl
  · exact ⟨rfl, rfl⟩

/-- C1 (amended): when the default port 23450 is occupied and both the
by-port and the by-name reap fail to free it, `prepareForStart` performs
exactly one +1 increment — the resulting port is 23451, never the original
23450 — without probing or verifying the incremented port, and a `start()`
from such a state reports 23451 through `getPort()`. -/
theorem claim1_port_increment (env : PortEnv) (senv : SpawnEnv)
    (s : SState) (hp : s.serverProcess = none) (hport : s.port = 23450)
    (h1 : env.inUse 23450 = true) (h2 : env.killByPort 23450 = false)
    (h3 : env.inUseAfterReap 23450 = true) :
    (prepareForStart env 23450).port = 23450 + 1 ∧
    (prepareForStart env 23450).byPortReapTried = true ∧
    (prepareForStart env 23450).byNameReapTried = true ∧
    getPort (start env senv none s).1 = 23451 := by
  have hprep : prepareForStart env 23450 = ⟨23451, true, true⟩ := by
    unfold prepareForStart
    rw [h1, h2, h3]
    simp
  refine ⟨by rw [hprep], by rw [hprep], by rw [hprep], ?_⟩
  have hns : s.serverProcess.isSome = false := by rw [hp]; rfl
  unfold start
  rw [hns]
  simp only [Bool.false_eq_true, if_false]
  rw [hport]
  unfold spawnServerProcess getServerPath
  cases hexe : senv.exeExists <;> simp [hprep, getPort]

/-- C1 witness: the amended statement evaluated in the all-busy
environment from the initial state. -/
theorem claim1_witness :
    (prepareForStart allBusyEnv 23450).port = 23450 + 1 ∧
    (prepareForStart allBusyEnv 23450).byPortReapTried = true ∧
    (prepareForStart allBusyEnv 23450).byNameReapTried = true ∧
    getPort (start allBusyEnv ⟨true, some 7⟩ none initialState).1 = 23451 :=
  claim1_port_increment allBusyEnv ⟨true, some 7⟩ initialState rfl rfl rfl
    rfl rfl

/-- A port environment in which every probed port is free. -/
def allFreeEnv : PortEnv :=
  ⟨fun _ => false, fun _ => false, fun _ => false⟩

/-- C4 counterexample: with the executable missing, `start()` from the
initial state resolves normally (`Except.ok`), merely clearing
`serverReady` — no `LaunchError` reaches the caller, and no process handle
or distinct failed state is recorded. -/
theorem claim4_counterexample :
    (start allFreeEnv ⟨false, none⟩ none initialState).2 = Except.ok () ∧
    (start allFreeEnv ⟨false, none⟩ none initialState).1.serverReady
        = false ∧
    (start allFreeEnv ⟨false, none⟩ none initialState).1.serverProcess
        = none :=
  ⟨rfl, rfl, rfl⟩

/-- C4 (amended): when the executable is missing, `getServerPath` does
throw, but `start()` catches the error internally, logs it, clears
`serverReady` and resolves normally — the error is not surfaced to the
caller and the supervisor records no failed state beyond
`serverProcess = none` and `serverReady = false`. -/
theorem claim4_launch_error_swallowed (penv : PortEnv) (senv : SpawnEnv)
    (pa : Option Nat) (s : SState) (hp : s.serverProcess = none)
    (hexe : senv.exeExists = false) :
    (∀ path, getServerPath senv.exeExists ≠ Except.ok path) ∧
    (start penv senv pa s).2 = Except.ok () ∧
    (start penv senv pa s).1.serverReady = false ∧
    (start penv senv pa s).1.serverProcess = none := by
  have hns : s.serverProcess.isSome = false := by rw [hp]; rfl
  have hgsp : getServerPath senv.exeExists =
      Except.error "后端服务可执行文件不存在" := by
    unfold getServerPath
    rw [hexe]
    rfl
  refine ⟨?_, ?_⟩
  · intro path hpath
    rw [hgsp] at hpath
    exact Except.noConfusion hpath
  · unfold start
    rw [hns]
    simp only [Bool.false_eq_true, if_false]
    cases pa <;> simp [spawnServerProcess, hgsp, hp]

/-- C4 witness: the amended statement evaluated at the missing-executable
spawn environment from the initial state. -/
theorem claim4_witness :
    (∀ path, getServerPath (false : Bool) ≠ Except.ok path) ∧
    (start allFreeEnv ⟨false, none⟩ (some 24000) initialState).2
        = Except.ok () ∧
    (start allFreeEnv ⟨false, none⟩ (some 24000) initialState).1.serverReady
        = false ∧
    (start allFreeEnv ⟨false, none⟩ (some 24000)
        initialState).1.serverProcess = none :=
  claim4_launch_error_swallowed allFreeEnv ⟨false, none⟩ (some 24000)
    initialState rfl rfl

/-- A state holding a handle whose pid is unavailable. -/
def pidlessState : SState :=
  ⟨some ⟨none⟩, 23450, false⟩

/-- A stop environment for the C7 counterexample (it is never consulted on
the pid-unavailable path). -/
def idleStopEnv : StopEnv :=
  ⟨fun _ => false, fun _ => false, .ok ⟨true, "清理成功"⟩⟩

/-- C7 counterexample: when `stop()` finds a handle whose pid is
unavailable, it drops the handle (resets the state) and returns `false`
with zero kill or reap invocations — the handle is leaked without any reap
attempt. -/
theorem claim7_counterexample :
    (stop idleStopEnv pidlessState).1.serverProcess = none ∧
    (stop idleStopEnv pidlessState).2 = false ∧
    stopReapAttempts idleStopEnv pidlessState = 0 := by
  decide

/-- Every run of the attempt loop makes at least one kill or reap
invocation. -/
theorem stopLoopAttempts_pos (env : StopEnv) :
    ∀ r attempt, 1 ≤ stopLoopAttempts env attempt r := by
  intro r
  induction r with
  | zero => intro attempt; exact Nat.le_refl 1
  | succ n ih =>
    intro attempt
    unfold stopLoopAttempts
    by_cases hk : env.killThrows attempt = true
    · simp [hk]
    · by_cases ha : env.aliveAfter attempt = true
      · simp [hk, ha]
      · simp [hk, ha]

/-- C7 (amended): whenever `stop()` runs with a handle whose pid is
available, at least one kill or reap invocation is made before the handle
is dropped; on the pid-unavailable path, however, the handle is dropped
with zero kill or reap invocations and `stop()` returns `false`. -/
theorem claim7_reap_before_drop (env : StopEnv) (s : SState) :
    (∀ h p, s.serverProcess = some h → h.pid = some p →
      1 ≤ stopReapAttempts env s) ∧
    (∀ h, s.serverProcess = some h → h.pid = none →
      stopReapAttempts env s = 0 ∧
      (stop env s).1.serverProcess = none ∧ (stop env s).2 = false) := by
  constructor
  · intro h p hproc hpid
    simp only [stopReapAttempts, hproc, hpid]
    exact stopLoopAttempts_pos env maxKillAttempts 1
  · intro h hproc hpid
    refine ⟨?_, ?_, ?_⟩
    · simp only [stopReapAttempts, hproc, hpid]
    · simp [stop, hproc, hpid, resetServerState]
    · simp [stop, hproc, hpid]

/-- C7 witness: both branches of the amended statement, evaluated on a
state with pid 41 and on the pid-less state. -/
theorem claim7_witness :
    1 ≤ stopReapAttempts idleStopEnv runningState ∧
    stopReapAttempts idleStopEnv pidlessState = 0 ∧
    (stop idleStopEnv pidlessState).2 = false :=
  ⟨(claim7_reap_before_drop idleStopEnv runningState).1 ⟨some 41⟩ 41
      rfl rfl,
   ((claim7_reap_before_drop idleStopEnv pidlessState).2 ⟨none⟩
      rfl rfl).1,
   ((claim7_reap_before_drop idleStopEnv pidlessState).2 ⟨none⟩
      rfl rfl).2.2⟩

/-- C3 counterexample: the interleaving A-guard, B-guard, A-spawn, B-spawn
lets both concurrent `start()` calls pass the `serverProcess`-null entry
guard before either spawns, and both calls complete having spawned two
processes — not the single spawn the claim states. -/
theorem claim3_counterexample :
    (runSchedule [.A, .B, .A, .B] concInit).spawnCount = 2 ∧
    (runSchedule [.A, .B, .A, .B] concInit).pcA = 2 ∧
    (runSchedule [.A, .B, .A, .B] concInit).pcB = 2 := by
  decide

/-- One step of a caller neither spawns nor re-arms a spawn once a handle
is installed and no caller sits between its guard and its spawn. -/
theorem stepCall_stable (c : Caller) (s : ConcState)
    (h1 : s.serverProcess.isSome = true) (h2 : s.pcA ≠ 1)
    (h3 : s.pcB ≠ 1) :
    ((stepCall c s).serverProcess.isSome = true ∧
      (stepCall c s).pcA ≠ 1 ∧ (stepCall c s).pcB ≠ 1) ∧
    (stepCall c s).spawnCount = s.spawnCount := by
  cases c <;> simp only [stepCall] <;> split_ifs <;> simp_all

/-- Any schedule run from a state with an installed handle and no caller
between guard and spawn leaves the spawn count unchanged. -/
theorem runSchedule_stable (sched : List Caller) (s : ConcState)
    (h1 : s.serverProcess.isSome = true) (h2 : s.pcA ≠ 1)
    (h3 : s.pcB ≠ 1) :
    (runSchedule sched s).spawnCount = s.spawnCount := by
  induction sched generalizing s with
  | nil => rfl
  | cons c cs ih =>
    have hs := stepCall_stable c s h1 h2 h3
    have hrun : runSchedule (c :: cs) s = runSchedule cs (stepCall c s) :=
      rfl
    rw [hrun, ih (stepCall c s) hs.1.1 hs.1.2.1 hs.1.2.2, hs.2]

/-- C3 (amended): the `serverProcess`-null entry guard serializes the two
`start()` calls only when the first call completes its spawn before the
second call reaches the guard — every schedule that begins with both steps
of caller A spawns exactly one process, however the interleaved schedule
A-guard, B-guard, A-spawn, B-spawn spawns two. -/
theorem claim3_no_duplicate_spawn :
    (∀ sched : List Caller,
      (runSchedule (Caller.A :: Caller.A :: sched) concInit).spawnCount
        = 1) ∧
    (runSchedule [Caller.A, Caller.B, Caller.A, Caller.B]
        concInit).spawnCount = 2 := by
  constructor
  · intro sched
    have hrun : runSchedule (Caller.A :: Caller.A :: sched) concInit =
        runSchedule sched ⟨some 1, 1, 2, 0⟩ := rfl
    rw [hrun,
      runSchedule_stable sched ⟨some 1, 1, 2, 0⟩ rfl (by decide)
        (by decide)]
  · decide

/-- C3 witness: the sequential schedule instantiated with the empty tail,
next to the duplicate-spawning interleaving. -/
theorem claim3_witness :
    (runSchedule [Caller.A, Caller.A] concInit).spawnCount = 1 ∧
    (runSchedule [Caller.A, Caller.B, Caller.A, Caller.B]
        concInit).spawnCount = 2 :=
  ⟨claim3_no_duplicate_spawn.1 [], claim3_no_duplicate_spawn.2⟩

/-- The attempt loop of `stop()` always hands back the reset state. -/
theorem stopLoop_fst (env : StopEnv) (s : SState) :
    ∀ r attempt, (stopLoop env s attempt r).1 = resetServerState s := by
  intro r
  induction r with
  | zero =>
    intro attempt
    show (finalCleanupAttempt env.reap s).1 = _
    unfold finalCleanupAttempt
    cases env.reap <;> rfl
  | succ n ih =>
    intro attempt
    show (if env.killThrows attempt then stopLoop env s (attempt + 1) n
        else if env.aliveAfter attempt then stopLoop env s (attempt + 1) n
        else (resetServerState s, true)).1 = _
    split_ifs <;> first | exact ih (attempt + 1) | rfl

/-- The function `stop` leaves the state unchanged or resets it. -/
theorem stop_fst (env : StopEnv) (s : SState) :
    (stop env s).1 = s ∨ (stop env s).1 = resetServerState s := by
  cases hsp : s.serverProcess with
  | none =>
    left
    simp [stop, hsp]
  | some h =>
    cases hpid : h.pid with
    | none =>
      right
      simp [stop, hsp, hpid]
    | some p =>
      right
      have hs : stop env s = attemptToStopProcess env s := by
        simp [stop, hsp, hpid]
      rw [hs]
      exact stopLoop_fst env s maxKillAttempts 1

/-- The function `isRunning` leaves the state unchanged or resets it. -/
theorem isRunning_fst (pf : Platform) (alive : Bool) (s : SState) :
    (isRunning pf alive s).1 = s ∨
    (isRunning pf alive s).1 = resetServerState s := by
  cases hsp : s.serverProcess with
  | none =>
    left
    simp [isRunning, hsp]
  | some h =>
    cases hpid : h.pid with
    | none =>
      left
      simp [isRunning, hsp, hpid]
    | some p =>
      by_cases hpf : pf = Platform.win32
      · left
        simp [isRunning, hsp, hpid, hpf]
      · cases halive : alive
        · right
          simp [isRunning, hsp, hpid, hpf, halive]
        · left
          simp [isRunning, hsp, hpid, hpf, halive]

/-- The function `isReady` either leaves the state unchanged or sets the
readiness
flag while a handle is present. -/
theorem isReady_fst (env : ReadyEnv) (s : SState) :
    (isReady env s).1 = s ∨
    ((isReady env s).1 = { s with serverReady := true } ∧
      s.serverProcess.isNone = false) := by
  unfold isReady
  split_ifs with h1 h2
  · left; rfl
  · left; rfl
  · split
    · right
      exact ⟨rfl, Bool.eq_false_iff.mpr h2⟩
    · left; rfl
    · left; rfl

/-- The function `start` preserves the readiness-implies-handle invariant. -/
theorem start_preserves_inv (penv : PortEnv) (senv : SpawnEnv)
    (pa : Option Nat) (s : SState) (hinv : ReadyImpliesHandle s) :
    ReadyImpliesHandle (start penv senv pa s).1 := by
  unfold start
  cases hsp : s.serverProcess.isSome
  · simp only [hsp, Bool.false_eq_true, if_false]
    cases pa <;> cases hexe : senv.exeExists <;>
      simp [spawnServerProcess, getServerPath, hexe, ReadyImpliesHandle]
  · simpa [hsp] using hinv

/-- The reset state satisfies the readiness-implies-handle invariant. -/
theorem resetServerState_inv (s : SState) :
    ReadyImpliesHandle (resetServerState s) := by
  intro h
  exact absurd h (by simp [resetServerState])

/-- A stop environment whose process ignores every kill attempt and whose
final by-name reap resolves without killing it. -/
def unkillableStopEnv : StopEnv :=
  ⟨fun _ => false, fun _ => true, .ok ⟨false, "清理进程部分失败"⟩⟩

/-- A live, ready supervisor state with pid 52. -/
def liveReadyState : SState :=
  ⟨some ⟨some 52⟩, 23450, true⟩

/-- C10 counterexample: a `stop()` whose three kill attempts and final
by-name reap all fail to kill the process still resets the state; the
surviving process then prints the readiness marker, and the stale stdout
listener — never detached by the source — sets `serverReady = true` while
`serverProcess` is `null`, violating the claimed invariant. -/
theorem claim10_counterexample :
    applyEvent (.stopOp unkillableStopEnv) liveReadyState =
      ⟨none, 23450, false⟩ ∧
    (applyEvent (.stdoutData readyMarker)
        (applyEvent (.stopOp unkillableStopEnv) liveReadyState)).serverReady
      = true ∧
    (applyEvent (.stdoutData readyMarker)
        (applyEvent (.stopOp unkillableStopEnv)
          liveReadyState)).serverProcess = none := by
  decide

/-- C10 (amended): `serverReady = true → serverProcess ≠ null` is
preserved by every event that is not a stream-`data` delivery — each
public operation and internal reset clears or sets the two fields
consistently — and by stream-`data` deliveries while the handle is
installed; but the `data` listeners are never detached, so it is not an
invariant of the whole system: a stale marker chunk delivered after
`resetServerState` sets the flag with a `null` handle. -/
theorem claim10_inv_unless_stale_listener (e : Event) (s : SState)
    (hinv : ReadyImpliesHandle s) :
    (isStreamData e = false → ReadyImpliesHandle (applyEvent e s)) ∧
    (s.serverProcess.isSome = true → ReadyImpliesHandle (applyEvent e s))
    := by
  have hnondata : ∀ e' : Event, isStreamData e' = false →
      ReadyImpliesHandle (applyEvent e' s) := by
    intro e' he'
    cases e' with
    | startOp penv senv pa => exact start_preserves_inv penv senv pa s hinv
    | stdoutData output => simp [isStreamData] at he'
    | stderrData output => simp [isStreamData] at he'
    | procExit => exact resetServerState_inv s
    | procError => exact resetServerState_inv s
    | stopOp env =>
      show ReadyImpliesHandle (stop env s).1
      rcases stop_fst env s with hfst | hfst <;> rw [hfst]
      · exact hinv
      · exact resetServerState_inv s
    | isReadyOp env =>
      show ReadyImpliesHandle (isReady env s).1
      rcases isReady_fst env s with hfst | ⟨hfst, hn⟩ <;> rw [hfst]
      · exact hinv
      · intro _
        cases hsp : s.serverProcess with
        | none => rw [hsp] at hn; simp at hn
        | some h => simp [hsp]
    | isRunningOp pf alive =>
      show ReadyImpliesHandle (isRunning pf alive s).1
      rcases isRunning_fst pf alive s with hfst | hfst <;> rw [hfst]
      · exact hinv
      · exact resetServerState_inv s
    | cleanupOldOp pf env => exact hinv
    | cleanupServicePortOp pf env penv => exact hinv
  refine ⟨hnondata e, ?_⟩
  intro hsome
  cases e with
  | stdoutData output =>
    show ReadyImpliesHandle (onStdoutData s output)
    unfold ReadyImpliesHandle onStdoutData
    split_ifs with hm
    · intro _
      exact hsome
    · exact hinv
  | stderrData output =>
    show ReadyImpliesHandle (onStderrData s output)
    unfold ReadyImpliesHandle onStderrData
    split_ifs with hl hm
    · intro _
      exact hsome
    · exact hinv
    · exact hinv
  | startOp penv senv pa => exact hnondata _ rfl
  | procExit => exact hnondata _ rfl
  | procError => exact hnondata _ rfl
  | stopOp env => exact hnondata _ rfl
  | isReadyOp env => exact hnondata _ rfl
  | isRunningOp pf alive => exact hnondata _ rfl
  | cleanupOldOp pf env => exact hnondata _ rfl
  | cleanupServicePortOp pf env penv => exact hnondata _ rfl

/-- C10 witness: the amended statement carried through a process-exit
event, and through a stdout marker event delivered while the handle is
still installed, both from the live ready state. -/
theorem claim10_witness :
    ReadyImpliesHandle (applyEvent .procExit liveReadyState) ∧
    ReadyImpliesHandle
      (applyEvent (.stdoutData readyMarker) liveReadyState) :=
  ⟨(claim10_inv_unless_stale_listener .procExit liveReadyState
      (fun _ => rfl)).1 rfl,
   (claim10_inv_unless_stale_listener (.stdoutData readyMarker)
      liveReadyState (fun _ => rfl)).2 rfl⟩

end Starbox
